import Mathlib

/-!
# WellPump: the two state enumerations and their holders

`src/PumpStates.h` and `src/WiFiStates.h` each declare an unscoped C++
enumeration without a fixed underlying type and one global variable of that
type.  The embedding below keeps the declarations as data (the enumerator
lists, in declaration order, none with an initializer) and derives from them

* the value of each enumerator (first enumerator 0, every further one the
  previous value plus one),
* the values of the enumeration type (the range `bmin .. bmax` of the
  smallest bit-field that holds every enumerator),

so that statements about "the values a holder can hold" are statements about
the declared types.
-/

namespace WellPump

/-! ## Unscoped enumerations -/

/-- One enumerator-definition of an enum-specifier: the identifier and the
optional constant initializer (`IDENT` or `IDENT = init`). -/
structure Enumerator where
  name : String
  init : Option Int

/-- Values of the enumerators of a declaration, in declaration order: an
enumerator with an initializer has that value; one without has the value
`next`, which is 0 for the first enumerator and the previous value plus one
afterwards. -/
def enumeratorValuesFrom : Int → List Enumerator → List Int
  | _, [] => []
  | next, e :: es =>
    let v := e.init.getD next
    v :: enumeratorValuesFrom (v + 1) es

/-- Values of the enumerators of a declaration. -/
def enumeratorValues (decl : List Enumerator) : List Int :=
  enumeratorValuesFrom 0 decl

/-- Smallest enumerator value (0 for an empty enumerator list, which behaves
as a single enumerator of value 0). -/
def enumMin (decl : List Enumerator) : Int :=
  match enumeratorValues decl with
  | [] => 0
  | v :: vs => vs.foldl min v

/-- Largest enumerator value (0 for an empty enumerator list). -/
def enumMax (decl : List Enumerator) : Int :=
  match enumeratorValues decl with
  | [] => 0
  | v :: vs => vs.foldl max v

/-- Number of binary digits of `n`, with `fuel` halvings available. -/
def bitWidthAux : Nat → Nat → Nat
  | 0, _ => 0
  | fuel + 1, n => if n = 0 then 0 else bitWidthAux fuel (n / 2) + 1

/-- Smallest `M` with `n ≤ 2 ^ M - 1`. -/
def bitWidth (n : Nat) : Nat := bitWidthAux n n

/-- Upper end `bmax` of the values of an enumeration whose underlying type is
not fixed: the smallest `2 ^ M - 1` that is at least
`max (|emin| - 1) |emax|` (two's complement). -/
def enumBmax (decl : List Enumerator) : Int :=
  ((2 ^ bitWidth (max ((enumMin decl).natAbs - 1) (enumMax decl).natAbs) - 1 : Nat) : Int)

/-- Lower end `bmin` of the values of the enumeration: 0 when no enumerator
is negative, `-(bmax + 1)` otherwise. -/
def enumBmin (decl : List Enumerator) : Int :=
  if 0 ≤ enumMin decl then 0 else -(enumBmax decl + 1)

/-- A value of the enumeration type declared by `decl`: an integer in the
range `bmin .. bmax`.  These are the values an object of the type can hold. -/
structure EnumValue (decl : List Enumerator) where
  val : Int
  inRange : enumBmin decl ≤ val ∧ val ≤ enumBmax decl

instance (decl : List Enumerator) : DecidableEq (EnumValue decl) := fun a b =>
  if h : a.val = b.val then
    isTrue (by cases a; cases b; cases h; rfl)
  else
    isFalse (fun e => h (by rw [e]))

/-- Conversion of an integer to the enumeration type (`static_cast<E>(v)`):
defined exactly for the integers in the range of the enumeration values. -/
def EnumValue.ofInt? (decl : List Enumerator) (v : Int) : Option (EnumValue decl) :=
  if h : enumBmin decl ≤ v ∧ v ≤ enumBmax decl then some ⟨v, h⟩ else none

/-- The declared value of the enumerator called `n`, if the declaration has
one of that name. -/
def enumeratorValue? (decl : List Enumerator) (n : String) : Option Int :=
  ((decl.map Enumerator.name).zip (enumeratorValues decl)).lookup n

/-- The named constant of the enumeration type that the enumerator `n`
introduces. -/
def EnumValue.named? (decl : List Enumerator) (n : String) : Option (EnumValue decl) :=
  (enumeratorValue? decl n).bind (EnumValue.ofInt? decl)

/-- The named constant for an enumerator that the declaration contains. -/
def EnumValue.named (decl : List Enumerator) (n : String)
    (h : (EnumValue.named? decl n).isSome = true) : EnumValue decl :=
  (EnumValue.named? decl n).get h

/-- All named constants of the enumeration, in declaration order. -/
def EnumValue.enumerators (decl : List Enumerator) : List (EnumValue decl) :=
  (enumeratorValues decl).filterMap (EnumValue.ofInt? decl)

/-- Integral conversion of an enumeration value (the implicit conversion of
an unscoped enumeration to an integer). -/
def EnumValue.toInt {decl : List Enumerator} (s : EnumValue decl) : Int := s.val

/-- Comparison of two enumeration values is the comparison of their integer
values. -/
instance (decl : List Enumerator) : LE (EnumValue decl) := ⟨fun a b => a.toInt ≤ b.toInt⟩

instance (decl : List Enumerator) : LT (EnumValue decl) := ⟨fun a b => a.toInt < b.toInt⟩

instance (decl : List Enumerator) (a b : EnumValue decl) : Decidable (a ≤ b) :=
  inferInstanceAs (Decidable (a.toInt ≤ b.toInt))

instance (decl : List Enumerator) (a b : EnumValue decl) : Decidable (a < b) :=
  inferInstanceAs (Decidable (a.toInt < b.toInt))

/-- Zero-initialization of an object of the enumeration type: the integer 0
converted to the type.  0 lies in the range of every enumeration. -/
def EnumValue.zeroInit (decl : List Enumerator) : EnumValue decl :=
  ⟨0, by
    constructor
    · unfold enumBmin
      split
      · exact le_refl 0
      · have h : (0 : Int) ≤ enumBmax decl := Int.ofNat_nonneg _
        omega
    · exact Int.ofNat_nonneg _⟩

/-! ## `PumpStates.h` -/

/-- The enumerator list of `enum PumpState`. -/
def PumpState.decl : List Enumerator :=
  [ ⟨"WELL_RECOVERY", none⟩,
    ⟨"STARTING_PUMP", none⟩,
    ⟨"PUMPING_WATER", none⟩,
    ⟨"STOPPING_PUMP", none⟩,
    ⟨"ERROR_RED", none⟩,
    ⟨"ERROR_PURPLE", none⟩,
    ⟨"ERROR_YELLOW", none⟩,
    ⟨"HALTED_PUMP", none⟩ ]

/-- The type `PumpState`. -/
abbrev PumpState : Type := EnumValue PumpState.decl

def WELL_RECOVERY : PumpState := EnumValue.named PumpState.decl "WELL_RECOVERY" (by decide)

def STARTING_PUMP : PumpState := EnumValue.named PumpState.decl "STARTING_PUMP" (by decide)

def PUMPING_WATER : PumpState := EnumValue.named PumpState.decl "PUMPING_WATER" (by decide)

def STOPPING_PUMP : PumpState := EnumValue.named PumpState.decl "STOPPING_PUMP" (by decide)

def ERROR_RED : PumpState := EnumValue.named PumpState.decl "ERROR_RED" (by decide)

def ERROR_PURPLE : PumpState := EnumValue.named PumpState.decl "ERROR_PURPLE" (by decide)

def ERROR_YELLOW : PumpState := EnumValue.named PumpState.decl "ERROR_YELLOW" (by decide)

def HALTED_PUMP : PumpState := EnumValue.named PumpState.decl "HALTED_PUMP" (by decide)

/-! ## `WiFiStates.h` -/

/-- The enumerator list of `enum WiFiState`. -/
def WiFiState.decl : List Enumerator :=
  [ ⟨"WIFI_DISABLED", none⟩,
    ⟨"WIFI_STA_CONNECTING", none⟩,
    ⟨"WIFI_STA_CONNECTED", none⟩,
    ⟨"WIFI_STA_RECONNECT", none⟩,
    ⟨"WIFI_AP_MODE", none⟩ ]

/-- The type `WiFiState`. -/
abbrev WiFiState : Type := EnumValue WiFiState.decl

def WIFI_DISABLED : WiFiState := EnumValue.named WiFiState.decl "WIFI_DISABLED" (by decide)

def WIFI_STA_CONNECTING : WiFiState :=
  EnumValue.named WiFiState.decl "WIFI_STA_CONNECTING" (by decide)

def WIFI_STA_CONNECTED : WiFiState :=
  EnumValue.named WiFiState.decl "WIFI_STA_CONNECTED" (by decide)

def WIFI_STA_RECONNECT : WiFiState :=
  EnumValue.named WiFiState.decl "WIFI_STA_RECONNECT" (by decide)

def WIFI_AP_MODE : WiFiState := EnumValue.named WiFiState.decl "WIFI_AP_MODE" (by decide)

/-- The integer 5 converted to `WiFiState` (`static_cast<WiFiState>(5)`): it
lies in the range `0 .. 7` of the values of the enumeration. -/
def WiFiState.five : WiFiState := ⟨5, by decide⟩

/-! ## The two global state holders -/

/-- The program state the two headers declare: `extern PumpState currentState;`
and `extern WiFiState currentWiFiState;`, two distinct objects. -/
structure Globals where
  currentState : PumpState
  currentWiFiState : WiFiState

/-- The assignment `currentState = s;`. -/
def Globals.assignCurrentState (g : Globals) (s : PumpState) : Globals :=
  { g with currentState := s }

/-- The assignment `currentWiFiState = w;`. -/
def Globals.assignCurrentWiFiState (g : Globals) (w : WiFiState) : Globals :=
  { g with currentWiFiState := w }

/-- Reading `currentState`. -/
def Globals.readCurrentState (g : Globals) : PumpState := g.currentState

/-- Reading `currentWiFiState`. -/
def Globals.readCurrentWiFiState (g : Globals) : WiFiState := g.currentWiFiState

/-! ## The pump transition operation

The headers contain no transition logic.  The table and the operation below
follow section 4.1 of the specification. -/

/-- Modelled from the spec: membership in the three error states
`ERROR_RED`, `ERROR_PURPLE`, `ERROR_YELLOW` (written `ERROR_*` in the
transition list of section 4.1; no such predicate is in the headers). -/
def isErrorState (s : PumpState) : Bool :=
  decide (s = ERROR_RED) || decide (s = ERROR_PURPLE) || decide (s = ERROR_YELLOW)

/-- Modelled from the spec: the default pump transition table of section 4.1,
which the headers do not contain.  `pumpReachable a b` holds when `b` is
listed as reachable from `a`:
WELL_RECOVERY → STARTING_PUMP; STARTING_PUMP → PUMPING_WATER and → ERROR_*;
PUMPING_WATER → STOPPING_PUMP and → ERROR_*; STOPPING_PUMP → WELL_RECOVERY;
ERROR_* → HALTED_PUMP and → WELL_RECOVERY; nothing from HALTED_PUMP. -/
def pumpReachable (a b : PumpState) : Bool :=
  (decide (a = WELL_RECOVERY) && decide (b = STARTING_PUMP))
  || (decide (a = STARTING_PUMP) && (decide (b = PUMPING_WATER) || isErrorState b))
  || (decide (a = PUMPING_WATER) && (decide (b = STOPPING_PUMP) || isErrorState b))
  || (decide (a = STOPPING_PUMP) && decide (b = WELL_RECOVERY))
  || (isErrorState a && (decide (b = HALTED_PUMP) || decide (b = WELL_RECOVERY)))

/-- Modelled from the spec: the failure condition of a rejected transition
request. -/
inductive TransitionError where
  | InvalidTransition
  deriving DecidableEq, Repr

/-- Modelled from the spec: the transition operation of section 4.1, which
the headers do not contain.  It validates the requested target against the
table: a listed target is stored in `currentState`; any other request fails
with `InvalidTransition` and the program state is returned as it was. -/
def pumpTransition (g : Globals) (target : PumpState) :
    Except TransitionError Unit × Globals :=
  if pumpReachable g.currentState target then
    (Except.ok (), g.assignCurrentState target)
  else
    (Except.error TransitionError.InvalidTransition, g)

/-- Modelled from the spec: the query operation of section 4.1, returning the
current pump state. -/
def pumpQuery (g : Globals) : PumpState := g.readCurrentState

/-! ## Facts about the embedding -/

theorem EnumValue.ext_val {decl : List Enumerator} {a b : EnumValue decl}
    (h : a.val = b.val) : a = b := by
  cases a; cases b; cases h; rfl

theorem bitWidthAux_spec (fuel : Nat) :
    ∀ n : Nat, n ≤ fuel →
      n < 2 ^ bitWidthAux fuel n ∧ (n ≠ 0 → 2 ^ (bitWidthAux fuel n - 1) ≤ n) := by
  induction fuel with
  | zero =>
    intro n hn
    have h0 : n = 0 := by omega
    subst h0
    simp [bitWidthAux]
  | succ k ih =>
    intro n hn
    unfold bitWidthAux
    by_cases h0 : n = 0
    · subst h0
      simp
    · rw [if_neg h0]
      have hk : n / 2 ≤ k := by omega
      obtain ⟨hlt, hge⟩ := ih (n / 2) hk
      constructor
      · rw [Nat.pow_succ]
        omega
      · intro _
        rw [Nat.add_sub_cancel]
        by_cases h2 : n / 2 = 0
        · rw [h2]
          have hz : bitWidthAux k 0 = 0 := by
            cases k <;> simp [bitWidthAux]
          rw [hz]
          omega
        · have hge2 := hge h2
          obtain ⟨m, hm⟩ : ∃ m, bitWidthAux k (n / 2) = m + 1 := by
            cases hb : bitWidthAux k (n / 2) with
            | zero =>
              rw [hb] at hlt
              omega
            | succ m => exact ⟨m, rfl⟩
          rw [hm] at hge2 ⊢
          rw [Nat.add_sub_cancel] at hge2
          rw [Nat.pow_succ]
          omega

/-- The width `bitWidth n` is the smallest `M` with `n ≤ 2 ^ M - 1`: `n` fits
in `bitWidth n` binary digits and, unless it is 0, not in fewer. -/
theorem bitWidth_spec (n : Nat) :
    n < 2 ^ bitWidth n ∧ (n ≠ 0 → 2 ^ (bitWidth n - 1) ≤ n) :=
  bitWidthAux_spec n n (Nat.le_refl n)

theorem pumpState_bmin_eq : enumBmin PumpState.decl = 0 := by decide

theorem pumpState_bmax_eq : enumBmax PumpState.decl = 7 := by decide

theorem wifiState_bmin_eq : enumBmin WiFiState.decl = 0 := by decide

theorem wifiState_bmax_eq : enumBmax WiFiState.decl = 7 := by decide

/-- Every value of `PumpState` is one of the eight named constants. -/
theorem pumpState_cases_named (s : PumpState) :
    s = WELL_RECOVERY ∨ s = STARTING_PUMP ∨ s = PUMPING_WATER ∨ s = STOPPING_PUMP
      ∨ s = ERROR_RED ∨ s = ERROR_PURPLE ∨ s = ERROR_YELLOW ∨ s = HALTED_PUMP := by
  obtain ⟨v, hv⟩ := s
  have h := hv
  rw [pumpState_bmin_eq, pumpState_bmax_eq] at h
  obtain ⟨h0, h7⟩ := h
  interval_cases v
  · exact Or.inl 
      (EnumValue.ext_val (show (0 : Int) = WELL_RECOVERY.val by decide))
  · exact Or.inr (Or.inl 
      (EnumValue.ext_val (show (1 : Int) = STARTING_PUMP.val by decide)))
  · exact Or.inr (Or.inr (Or.inl 
      (EnumValue.ext_val (show (2 : Int) = PUMPING_WATER.val by decide))))
  · exact Or.inr (Or.inr (Or.inr (Or.inl 
      (EnumValue.ext_val (show (3 : Int) = STOPPING_PUMP.val by decide)))))
  · exact Or.inr (Or.inr (Or.inr (Or.inr (Or.inl 
      (EnumValue.ext_val (show (4 : Int) = ERROR_RED.val by decide))))))
  · exact Or.inr (Or.inr (Or.inr (Or.inr (Or.inr (Or.inl 
      (EnumValue.ext_val (show (5 : Int) = ERROR_PURPLE.val by decide)))))))
  · exact Or.inr (Or.inr (Or.inr (Or.inr (Or.inr (Or.inr (Or.inl 
      (EnumValue.ext_val (show (6 : Int) = ERROR_YELLOW.val by decide))))))))
  · exact Or.inr (Or.inr (Or.inr (Or.inr (Or.inr (Or.inr (Or.inr 
      (EnumValue.ext_val (show (7 : Int) = HALTED_PUMP.val by decide))))))))

/-- Every value of `WiFiState` is one of the five named constants or has one
of the integer values 5, 6, 7. -/
theorem wifiState_cases_named (w : WiFiState) :
    w = WIFI_DISABLED ∨ w = WIFI_STA_CONNECTING ∨ w = WIFI_STA_CONNECTED
      ∨ w = WIFI_STA_RECONNECT ∨ w = WIFI_AP_MODE
      ∨ w.val = 5 ∨ w.val = 6 ∨ w.val = 7 := by
  obtain ⟨v, hv⟩ := w
  have h := hv
  rw [wifiState_bmin_eq, wifiState_bmax_eq] at h
  obtain ⟨h0, h7⟩ := h
  interval_cases v
  · exact Or.inl (EnumValue.ext_val (show (0 : Int) = WIFI_DISABLED.val by decide))
  · exact Or.inr (Or.inl
      (EnumValue.ext_val (show (1 : Int) = WIFI_STA_CONNECTING.val by decide)))
  · exact Or.inr (Or.inr (Or.inl
      (EnumValue.ext_val (show (2 : Int) = WIFI_STA_CONNECTED.val by decide))))
  · exact Or.inr (Or.inr (Or.inr (Or.inl
      (EnumValue.ext_val (show (3 : Int) = WIFI_STA_RECONNECT.val by decide)))))
  · exact Or.inr (Or.inr (Or.inr (Or.inr (Or.inl
      (EnumValue.ext_val (show (4 : Int) = WIFI_AP_MODE.val by decide))))))
  · exact Or.inr (Or.inr (Or.inr (Or.inr (Or.inr (Or.inl rfl)))))
  · exact Or.inr (Or.inr (Or.inr (Or.inr (Or.inr (Or.inr (Or.inl rfl))))))
  · exact Or.inr (Or.inr (Or.inr (Or.inr (Or.inr (Or.inr (Or.inr rfl))))))

/-- How many of a list of constants are equal to `x` depends only on the
integer value of `x`. -/
theorem EnumValue.count_eq_count_val {decl : List Enumerator} (l : List (EnumValue decl))
    (x : EnumValue decl) : l.count x = (l.map EnumValue.val).count x.val := by
  induction l with
  | nil => rfl
  | cons a t ih =>
    by_cases h : a = x
    · subst h
      simp [ih]
    · have hv : a.val ≠ x.val := fun e => h (EnumValue.ext_val e)
      simp [List.count_cons, h, hv, ih]

/-- A rejected request: the state comes back as it was. -/
theorem pumpTransition_of_not_reachable (g : Globals) (target : PumpState)
    (h : pumpReachable g.currentState target = false) :
    pumpTransition g target = (Except.error TransitionError.InvalidTransition, g) := by
  unfold pumpTransition
  rw [h]
  rfl

/-- An accepted request: the target is stored. -/
theorem pumpTransition_of_reachable (g : Globals) (target : PumpState)
    (h : pumpReachable g.currentState target = true) :
    pumpTransition g target = (Except.ok (), g.assignCurrentState target) := by
  unfold pumpTransition
  rw [h]
  rfl

/-- Nothing is listed as reachable from `HALTED_PUMP`. -/
theorem pumpReachable_halted (t : PumpState) : pumpReachable HALTED_PUMP t = false := by
  rcases pumpState_cases_named t with h | h | h | h | h | h | h | h <;> subst h <;> decide

/-! ## The claims -/

/-- C1: `enum PumpState` declares exactly eight enumerators, named
WELL_RECOVERY, STARTING_PUMP, PUMPING_WATER, STOPPING_PUMP, ERROR_RED,
ERROR_PURPLE, ERROR_YELLOW and HALTED_PUMP in this order; the constants they
introduce are the eight named constants, and both the constants and their
integer values are pairwise distinct. -/
theorem pumpState_eight_distinct_enumerators :
    PumpState.decl.map Enumerator.name =
        ["WELL_RECOVERY", "STARTING_PUMP", "PUMPING_WATER", "STOPPING_PUMP", "ERROR_RED",
          "ERROR_PURPLE", "ERROR_YELLOW", "HALTED_PUMP"]
      ∧ PumpState.decl.length = 8
      ∧ EnumValue.enumerators PumpState.decl = 
      [WELL_RECOVERY, STARTING_PUMP, PUMPING_WATER, STOPPING_PUMP, ERROR_RED, ERROR_PURPLE,
        ERROR_YELLOW, HALTED_PUMP]
      ∧ (EnumValue.enumerators PumpState.decl).length = 8
      ∧ (EnumValue.enumerators PumpState.decl).Nodup
      ∧ (enumeratorValues PumpState.decl).Nodup := by
  refine ⟨rfl, rfl, ?_, ?_, ?_, ?_⟩ <;> decide

/-- C2: `enum WiFiState` declares exactly five enumerators, named
WIFI_DISABLED, WIFI_STA_CONNECTING, WIFI_STA_CONNECTED, WIFI_STA_RECONNECT and
WIFI_AP_MODE in this order; the constants they introduce are the five named
constants, and both the constants and their integer values are pairwise
distinct. -/
theorem wifiState_five_distinct_enumerators :
    WiFiState.decl.map Enumerator.name =
        ["WIFI_DISABLED", "WIFI_STA_CONNECTING", "WIFI_STA_CONNECTED", "WIFI_STA_RECONNECT",
          "WIFI_AP_MODE"]
      ∧ WiFiState.decl.length = 5
      ∧ EnumValue.enumerators WiFiState.decl = 
      [WIFI_DISABLED, WIFI_STA_CONNECTING, WIFI_STA_CONNECTED, WIFI_STA_RECONNECT, WIFI_AP_MODE]
      ∧ (EnumValue.enumerators WiFiState.decl).length = 5
      ∧ (EnumValue.enumerators WiFiState.decl).Nodup
      ∧ (enumeratorValues WiFiState.decl).Nodup := by
  refine ⟨rfl, rfl, ?_, ?_, ?_, ?_⟩ <;> decide

/-- C3: every value that a holder of type `PumpState` (such as `currentState`)
can hold is equal to exactly one of the eight enumerators: among the eight
constants, the number of those equal to the value is 1. -/
theorem currentState_exactly_one_enumerator (g : Globals) :
    List.count g.currentState 
      [WELL_RECOVERY, STARTING_PUMP, PUMPING_WATER, STOPPING_PUMP, ERROR_RED, ERROR_PURPLE,
        ERROR_YELLOW, HALTED_PUMP] = 1 := by
  rcases pumpState_cases_named g.currentState with h | h | h | h | h | h | h | h <;>
    rw [h] <;> decide

/-- C4, as stated, fails: the value 5 is a value of type `WiFiState`, so
`currentWiFiState` can hold it, and none of the five enumerators is equal to
it; hence not every value of the holder equals exactly one enumerator. -/
theorem currentWiFiState_five_is_no_enumerator :
    EnumValue.ofInt? WiFiState.decl 5 = some WiFiState.five
      ∧ List.count (Globals.mk WELL_RECOVERY WiFiState.five).currentWiFiState 
      [WIFI_DISABLED, WIFI_STA_CONNECTING, WIFI_STA_CONNECTED, WIFI_STA_RECONNECT, WIFI_AP_MODE] = 0
      ∧ ¬ ∀ g : Globals, List.count g.currentWiFiState 
      [WIFI_DISABLED, WIFI_STA_CONNECTING, WIFI_STA_CONNECTED, WIFI_STA_RECONNECT, WIFI_AP_MODE] = 1 := by
  refine ⟨by decide, by decide, fun h => ?_⟩
  have h5 := h (Globals.mk WELL_RECOVERY WiFiState.five)
  revert h5
  decide

/-- C4, amended: the values of type `WiFiState` are exactly the integers
0 .. 7; every value that `currentWiFiState` can hold is equal to at most one
of the five enumerators, to exactly one when its integer value is at most 4,
and to none when its integer value is 5, 6 or 7. -/
theorem currentWiFiState_at_most_one_enumerator :
    (∀ v : Int, (EnumValue.ofInt? WiFiState.decl v).isSome = decide (0 ≤ v ∧ v ≤ 7))
      ∧ ∀ g : Globals,
          (0 ≤ g.currentWiFiState.toInt ∧ g.currentWiFiState.toInt ≤ 7)
          ∧ List.count g.currentWiFiState 
      [WIFI_DISABLED, WIFI_STA_CONNECTING, WIFI_STA_CONNECTED, WIFI_STA_RECONNECT, WIFI_AP_MODE] ≤ 1
          ∧ (List.count g.currentWiFiState 
      [WIFI_DISABLED, WIFI_STA_CONNECTING, WIFI_STA_CONNECTED, WIFI_STA_RECONNECT, WIFI_AP_MODE] = 1 ↔ g.currentWiFiState.toInt ≤ 4)
          ∧ (List.count g.currentWiFiState 
      [WIFI_DISABLED, WIFI_STA_CONNECTING, WIFI_STA_CONNECTED, WIFI_STA_RECONNECT, WIFI_AP_MODE] = 0 ↔ 5 ≤ g.currentWiFiState.toInt) := by
  constructor
  · intro v
    have hiff : (enumBmin WiFiState.decl ≤ v ∧ v ≤ enumBmax WiFiState.decl)
        ↔ (0 ≤ v ∧ v ≤ 7) := by
      rw [wifiState_bmin_eq, wifiState_bmax_eq]
    unfold EnumValue.ofInt?
    by_cases h : enumBmin WiFiState.decl ≤ v ∧ v ≤ enumBmax WiFiState.decl
    · rw [dif_pos h, decide_eq_true (hiff.mp h)]
      rfl
    · rw [dif_neg h, decide_eq_false (fun h2 => h (hiff.mpr h2))]
      rfl
  · intro g
    have hr := g.currentWiFiState.inRange
    rw [wifiState_bmin_eq, wifiState_bmax_eq] at hr
    refine ⟨hr, ?_⟩
    rw [EnumValue.count_eq_count_val]
    have hl : List.map EnumValue.val 
      [WIFI_DISABLED, WIFI_STA_CONNECTING, WIFI_STA_CONNECTED, WIFI_STA_RECONNECT, WIFI_AP_MODE] = [0, 1, 2, 3, 4] := by decide
    rw [hl]
    unfold EnumValue.toInt
    generalize g.currentWiFiState.val = v at hr ⊢
    obtain ⟨h0, h7⟩ := hr
    interval_cases v <;> decide

/-- C5: read-after-write consistency of the two holders: reading
`currentState` right after assigning `s` to it yields `s`, and reading
`currentWiFiState` right after assigning `w` to it yields `w`. -/
theorem holders_read_after_write (g : Globals) (s : PumpState) (w : WiFiState) :
    (g.assignCurrentState s).readCurrentState = s
      ∧ (g.assignCurrentWiFiState w).readCurrentWiFiState = w :=
  ⟨rfl, rfl⟩

/-- C6: the two holders are independent: assigning to `currentState` leaves
`currentWiFiState` unchanged, and assigning to `currentWiFiState` leaves
`currentState` unchanged. -/
theorem holders_independent (g : Globals) (s : PumpState) (w : WiFiState) :
    (g.assignCurrentState s).readCurrentWiFiState = g.readCurrentWiFiState
      ∧ (g.assignCurrentWiFiState w).readCurrentState = g.readCurrentState :=
  ⟨rfl, rfl⟩

/-- C7: for every current pump state and every target that the transition
table does not list as reachable from it, the transition request fails with
`InvalidTransition` and leaves the program state, `currentState` included,
unchanged. -/
theorem pumpTransition_rejects_unlisted (g : Globals) (target : PumpState)
    (h : pumpReachable g.currentState target = false) :
    (pumpTransition g target).1 = Except.error TransitionError.InvalidTransition
      ∧ (pumpTransition g target).2 = g
      ∧ pumpQuery (pumpTransition g target).2 = pumpQuery g := by
  rw [pumpTransition_of_not_reachable g target h]
  exact ⟨rfl, rfl, rfl⟩

/-- Witness for C7: PUMPING_WATER is not listed as reachable from
WELL_RECOVERY, and requesting it there fails and changes nothing. -/
theorem pumpTransition_rejects_unlisted_witness :
    pumpReachable (Globals.mk WELL_RECOVERY WIFI_DISABLED).currentState PUMPING_WATER = false
      ∧ (pumpTransition (Globals.mk WELL_RECOVERY WIFI_DISABLED) PUMPING_WATER).1
          = Except.error TransitionError.InvalidTransition
      ∧ (pumpTransition (Globals.mk WELL_RECOVERY WIFI_DISABLED) PUMPING_WATER).2
          = Globals.mk WELL_RECOVERY WIFI_DISABLED :=
  ⟨by decide,
    (pumpTransition_rejects_unlisted (Globals.mk WELL_RECOVERY WIFI_DISABLED) PUMPING_WATER
      (by decide)).1,
    (pumpTransition_rejects_unlisted (Globals.mk WELL_RECOVERY WIFI_DISABLED) PUMPING_WATER
      (by decide)).2.1⟩

/-- C8: `HALTED_PUMP` is terminal in the default transition table: no target
is listed as reachable from it, and a transition request made while
`currentState` is `HALTED_PUMP` fails and leaves the state as it was. -/
theorem halted_pump_terminal (w : WiFiState) (t : PumpState) :
    pumpReachable HALTED_PUMP t = false
      ∧ pumpTransition (Globals.mk HALTED_PUMP w) t
          = (Except.error TransitionError.InvalidTransition, Globals.mk HALTED_PUMP w)
      ∧ pumpQuery (pumpTransition (Globals.mk HALTED_PUMP w) t).2 = HALTED_PUMP := by
  have h := pumpTransition_of_not_reachable (Globals.mk HALTED_PUMP w) t (pumpReachable_halted t)
  refine ⟨pumpReachable_halted t, h, ?_⟩
  rw [h]
  rfl

/-- C9: the integer value of every enumerator is its zero-based position in
the declaration (PumpState 0 .. 7, WiFiState 0 .. 4); the conversion to
integer is injective on both types; a zero-initialised holder is in
`WELL_RECOVERY`, respectively `WIFI_DISABLED`. -/
theorem enumerator_values_are_positions :
    (enumeratorValues PumpState.decl = [0, 1, 2, 3, 4, 5, 6, 7]
      ∧ WELL_RECOVERY.toInt = 0 ∧ STARTING_PUMP.toInt = 1 ∧ PUMPING_WATER.toInt = 2
      ∧ STOPPING_PUMP.toInt = 3 ∧ ERROR_RED.toInt = 4 ∧ ERROR_PURPLE.toInt = 5
      ∧ ERROR_YELLOW.toInt = 6 ∧ HALTED_PUMP.toInt = 7)
    ∧ (enumeratorValues WiFiState.decl = [0, 1, 2, 3, 4]
      ∧ WIFI_DISABLED.toInt = 0 ∧ WIFI_STA_CONNECTING.toInt = 1
      ∧ WIFI_STA_CONNECTED.toInt = 2 ∧ WIFI_STA_RECONNECT.toInt = 3
      ∧ WIFI_AP_MODE.toInt = 4)
    ∧ Function.Injective (EnumValue.toInt : PumpState → Int)
    ∧ Function.Injective (EnumValue.toInt : WiFiState → Int)
    ∧ EnumValue.zeroInit PumpState.decl = WELL_RECOVERY
    ∧ EnumValue.zeroInit WiFiState.decl = WIFI_DISABLED := by
  refine ⟨by decide, by decide, ?_, ?_, by decide, by decide⟩
  · intro a b hab
    exact EnumValue.ext_val hab
  · intro a b hab
    exact EnumValue.ext_val hab

/-- C10: the three error states are contiguous in the enumeration order: a
pump state is one of ERROR_RED, ERROR_PURPLE, ERROR_YELLOW exactly when it
lies between ERROR_RED and ERROR_YELLOW; each of the four normal-cycle states
compares below every error state; `HALTED_PUMP` compares above every other
state. -/
theorem error_states_contiguous (s e : PumpState) :
    ((s = ERROR_RED ∨ s = ERROR_PURPLE ∨ s = ERROR_YELLOW) ↔ (ERROR_RED ≤ s ∧ s ≤ ERROR_YELLOW))
      ∧ ((s = WELL_RECOVERY ∨ s = STARTING_PUMP ∨ s = PUMPING_WATER ∨ s = STOPPING_PUMP) →
          (e = ERROR_RED ∨ e = ERROR_PURPLE ∨ e = ERROR_YELLOW) → s < e)
      ∧ (s ≠ HALTED_PUMP → s < HALTED_PUMP) := by
  refine ⟨?_, ?_, ?_⟩
  · rcases pumpState_cases_named s with h | h | h | h | h | h | h | h <;> subst h <;> decide
  · intro hs he
    rcases hs with h | h | h | h <;> rcases he with k | k | k <;> subst h <;> subst k <;> decide
  · rcases pumpState_cases_named s with h | h | h | h | h | h | h | h <;> subst h <;> decide

/-- Witness for C10: PUMPING_WATER is a normal-cycle state, ERROR_PURPLE an
error state, and PUMPING_WATER compares below both ERROR_PURPLE and
HALTED_PUMP. -/
theorem error_states_contiguous_witness :
    PUMPING_WATER ≠ HALTED_PUMP ∧ PUMPING_WATER < ERROR_PURPLE ∧ PUMPING_WATER < HALTED_PUMP :=
  ⟨by decide,
    (error_states_contiguous PUMPING_WATER ERROR_PURPLE).2.1
      (Or.inr (Or.inr (Or.inl rfl))) (Or.inr (Or.inl rfl)),
    (error_states_contiguous PUMPING_WATER ERROR_PURPLE).2.2 (by decide)⟩

end WellPump
